import Mathlib

/-!
Verification development for the `online_news.py` news scraper
(`EnhancedNepaliNewsScraper`).  The Python code is shallowly embedded:
the DOM tree produced by the HTML parser is abstracted to the query
results the code actually reads (`Soup`, `ListingPage`), the network is
abstracted to outcome traces passed in as functions, and the mutable
instance attribute `self.scraped_articles` is threaded as explicit
state.  All definitions are translated from the source file.
-/

namespace OnlineNews

/-- The article record built at `online_news.py` lines 95-106.
`word_count` and `char_count` are Python ints, modelled as `Nat`
(both are lengths, always non-negative). -/
structure Article where
  url : String
  timestamp : String
  title : String
  content : String
  category : String
  author : String
  word_count : Nat
  char_count : Nat
  scraped_at : String
  scraper_version : String
deriving Repr, DecidableEq

/-- Abstraction of the parsed article page (`BeautifulSoup` object), recording
exactly the query results `scrape_article` and its helpers read:
* `h1` — `soup.find('h1')` followed by `get_text(strip=True)`; `none` when the
  page has no `h1` node;
* `contentWrap` — the `div` with class `ok18-single-post-content-wrap`; when
  present, the list of `p.get_text(strip=True)` values of its `p` descendants
  (in document order); `none` when the node is absent;
* `selectOne` — `soup.select_one(sel)` followed by `get_text(strip=True)`,
  per CSS selector string; `none` when no node matches. -/
structure Soup where
  h1 : Option String
  contentWrap : Option (List String)
  selectOne : String → Option String

/-- Split a character list at every character satisfying `p`, keeping empty
pieces (the semantics of splitting on every separator occurrence). -/
def splitWhen (p : Char → Bool) : List Char → List (List Char)
  | [] => [[]]
  | c :: rest =>
    let r := splitWhen p rest
    if p c then [] :: r
    else
      match r with
      | [] => [[c]]
      | g :: gs => (c :: g) :: gs

/-- `str.split()` of Python with no argument: split on whitespace,
dropping empty pieces (equivalently: split on whitespace runs). -/
def pySplit (s : String) : List String :=
  ((splitWhen Char.isWhitespace s.data).map String.mk).filter (fun p => p ≠ ("" : String))

/-- `str.split(sep)` of Python for a one-character separator: split at every
occurrence, keeping empty pieces. -/
def pySplitOnChar (s : String) (sep : Char) : List String :=
  (splitWhen (fun c => c = sep) s.data).map String.mk

/-- `str.lower()` (ASCII case folding, which covers every string the code
compares: the category vocabulary and URL path segments). -/
def pyLower (s : String) : String :=
  String.mk (s.data.map Char.toLower)

/-- Try a list of CSS selectors in order, first hit wins (the
`for selector in ...: element = soup.select_one(selector)` pattern shared by
the three `_extract_*` helpers). -/
def firstSelector (soup : Soup) : List String → Option String
  | [] => none
  | sel :: rest =>
    match soup.selectOne sel with
    | some t => some t
    | none => firstSelector soup rest

/-- `_extract_timestamp` (lines 125-139). -/
def extractTimestamp (soup : Soup) : String :=
  (firstSelector soup [("div.ok-news-post-hour span"), (".timestamp"), (".post-date"), ("[class*=\"date\"]")]).getD ("No timestamp found")

/-- The fixed category vocabulary of `_extract_category` (line 156). -/
def categoryVocabulary : List String :=
  [("politics"), ("sports"), ("economy"), ("technology"), ("entertainment"), ("health")]

/-- The `category_selectors` list of `_extract_category` (lines 143-147). -/
def categorySelectors : List String :=
  [(".category-name"), (".post-category"), ("[class*=\"category\"]")]

/-- `_extract_category` (lines 141-161): selector chain first; else the first
slash-separated URL part whose lowercasing is in the vocabulary (the part is
returned as written, not lowercased); else `"general"`. -/
def extractCategory (soup : Soup) (url : String) : String :=
  match firstSelector soup categorySelectors with
  | some t => t
  | none =>
    match (pySplitOnChar url '/').find? (fun part => categoryVocabulary.contains (pyLower part)) with
    | some part => part
    | none => ("general")

/-- `_extract_author` (lines 163-177). -/
def extractAuthor (soup : Soup) : String :=
  (firstSelector soup [(".author-name"), (".post-author"), ("[class*=\"author\"]"), (".byline")]).getD ("Unknown")

/-- The join `' '.join(p.get_text(strip=True) for p in paragraphs if p.get_text(strip=True))`
(line 83): keep non-empty paragraph texts, join with single spaces. -/
def joinParagraphs (paras : List String) : String :=
  String.intercalate (" ") (paras.filter (fun p => p ≠ ("" : String)))

/-- The body of `scrape_article`'s `try` block after a successful fetch
(lines 71-109): reject when the `h1` or the content wrapper is missing or the
joined paragraph text is shorter than 100 characters; otherwise build the
record.  `now` is the `datetime.now().isoformat()` string. -/
def extractArticle (url : String) (soup : Soup) (now : String) : Option Article :=
  match soup.h1, soup.contentWrap with
  | some title, some paras =>
    let content := joinParagraphs paras
    if content.length < 100 then none
    else some {
      url := url
      timestamp := extractTimestamp soup
      title := title
      content := content
      category := extractCategory soup url
      author := extractAuthor soup
      word_count := (pySplit content).length
      char_count := content.length
      scraped_at := now
      scraper_version := ("enhanced_v1.0") }
  | _, _ => none

/-- Outcome of one `requests.get` attempt inside `scrape_article`:
a parsed page, a `requests.exceptions.RequestException`, or any other
exception raised inside the `try` block. -/
inductive FetchResult where
  | success (soup : Soup)
  | requestError
  | otherError
deriving Inhabited

/-- The retry loop of `scrape_article` (lines 66-123), with the network
abstracted to the list of per-attempt outcomes (one entry per attempt the
loop would make; the list's length is `max_retries`, `attempt` is the current
index into `range(max_retries)`).  Jitter values drawn by
`random.uniform(0, 1)` are supplied by `jitter`.  Returns the article (or
`none`) together with the list of back-off sleep durations, in order: after a
failed attempt `a` with attempts remaining the code sleeps
`2 ** a + random.uniform(0, 1)` seconds (line 114).  A non-request exception
breaks the loop; a successful fetch returns the extraction result directly
(even when extraction rejects the page, line 79). -/
def scrapeAttempts (url now : String) (jitter : ℕ → ℚ) :
    List FetchResult → ℕ → Option Article × List ℚ
  | [], _ => (none, [])
  | outcome :: rest, attempt =>
    match outcome with
    | .success soup => (extractArticle url soup now, [])
    | .otherError => (none, [])
    | .requestError =>
      if rest.isEmpty then (none, [])
      else
        let r := scrapeAttempts url now jitter rest (attempt + 1)
        (r.1, ((2 : ℚ) ^ attempt + jitter attempt) :: r.2)

/-- `scrape_article` as a whole: run the attempt loop from attempt 0.
`outcomes` must have length `max_retries` (default 3). -/
def scrapeArticle (url now : String) (jitter : ℕ → ℚ)
    (outcomes : List FetchResult) : Option Article × List ℚ :=
  scrapeAttempts url now jitter outcomes 0

/-- Abstraction of a parsed listing page, recording what
`get_article_links_for_month` reads: the `href` of every `<a href=...>`
element in document order, and whether an `<a class="next page-numbers">`
node is present. -/
structure ListingPage where
  hrefs : List String
  hasNext : Bool

/-- Substring test on `List Char`: Python's `needle in hay`. -/
def charsContain (needle : List Char) : List Char → Bool
  | [] => needle.isPrefixOf []
  | c :: rest => needle.isPrefixOf (c :: rest) || charsContain needle rest

/-- Python's `needle in hay` on strings. -/
def strContains (hay needle : String) : Bool :=
  charsContain needle.data hay.data

/-- `str(month).zfill(2)` for a non-negative month. -/
def zfill2 (month : ℕ) : String :=
  if month < 10 then ("0") ++ toString month else toString month

/-- The href filter of lines 210-214: the literal
`f"https://www.onlinekhabar.com/{year}/{month_str}/"`. -/
def monthFragment (year month : ℕ) : String :=
  ("https://www.onlinekhabar.com/") ++ toString year ++ ("/") ++ zfill2 month ++ ("/")

/-- `links.add(href)` where `links` is a Python `set`, modelled as a
duplicate-free list in insertion order (only membership and size are
observed by the code, apart from the unspecified iteration order of
`list(links)`). -/
def addLink (links : List String) (href : String) : List String :=
  if links.contains href then links else links ++ [href]

/-- One page's worth of `links.add` calls (the `for link in article_links`
loop, lines 210-214). -/
def addPageLinks (frag : String) (links : List String) (hrefs : List String) : List String :=
  hrefs.foldl (fun acc href => if strContains href frag then addLink acc href else acc) links

/-- The `while len(links) < max_articles and page <= 20` loop of
`get_article_links_for_month` (lines 198-229), with the network abstracted to
`pages : page number → fetch outcome` (`none` when `requests.get` or
processing raises — the code makes exactly one fetch attempt per page and
`break`s on any exception).  Returns the link set together with the number of
page fetches performed.  `fuel` bounds the recursion; at 21 it is never
exhausted before the `page <= 20` test fails. -/
def collectLoop (frag : String) (maxArticles : ℕ) (pages : ℕ → Option ListingPage) :
    ℕ → ℕ → List String → List String × ℕ
  | 0, _, links => (links, 0)
  | fuel + 1, page, links =>
    if links.length < maxArticles ∧ page ≤ 20 then
      match pages page with
      | none => (links, 1)
      | some p =>
        let links2 := addPageLinks frag links p.hrefs
        if p.hasNext then
          let r := collectLoop frag maxArticles pages fuel (page + 1) links2
          (r.1, r.2 + 1)
        else (links2, 1)
    else (links, 0)

/-- `get_article_links_for_month(year, month, max_articles)` (lines 179-232):
returns the collected links (as `list(links)`, here in insertion order) and
the number of listing-page fetches performed. -/
def getArticleLinksForMonth (year month maxArticles : ℕ)
    (pages : ℕ → Option ListingPage) : List String × ℕ :=
  collectLoop (monthFragment year month) maxArticles pages 21 1 []

/-- `scrape_articles_bulk(urls)` (lines 234-256), with per-URL scraping
abstracted to `fetch : url → Option Article` (the value of
`self.scrape_article(url)`).  The instance attribute `self.scraped_articles`
is threaded as explicit state.  Returns the local `articles` list together
with the updated `self.scraped_articles`: each successful article is appended
to both, in order. -/
def scrapeArticlesBulk (fetch : String → Option Article) :
    List String → List Article → List Article × List Article
  | [], state => ([], state)
  | url :: rest, state =>
    match fetch url with
    | some a =>
      let r := scrapeArticlesBulk fetch rest (state ++ [a])
      (a :: r.1, r.2)
    | none => scrapeArticlesBulk fetch rest state

/-- One iteration of the `for i in range(n_months)` loop of
`scrape_last_n_months` (lines 274-295), acting on the accumulator
`(all_articles, trace of passed URL lists, self.scraped_articles)`. -/
def monthStep (articlesPerMonth : ℕ) (targetYM : ℕ → ℕ × ℕ)
    (pagesFor : ℕ → ℕ → Option ListingPage) (fetch : String → Option Article)
    (acc : List Article × List (List String) × List Article) (i : ℕ) :
    List Article × List (List String) × List Article :=
  let ym := targetYM i
  let articleUrls := (getArticleLinksForMonth ym.1 ym.2 articlesPerMonth (pagesFor i)).1
  if articleUrls.isEmpty then acc
  else
    let r := scrapeArticlesBulk fetch articleUrls acc.2.2
    (acc.1 ++ r.1, acc.2.1 ++ [articleUrls], r.2)

/-- `scrape_last_n_months(n_months, articles_per_month)` (lines 258-298).
The date arithmetic `datetime.now() - timedelta(days=30*i)` is abstracted to
`targetYM : month index → (year, month)`; the listing network for month `i`
is `pagesFor i`, and per-article scraping is `fetch`, as in
`scrapeArticlesBulk`.  Returns `all_articles`, the trace of URL lists handed
to `scrape_articles_bulk` (one entry per month whose collector output was
non-empty — note the URL list is passed through unmodified, line 284), and
the final `self.scraped_articles`. -/
def scrapeLastNMonths (nMonths articlesPerMonth : ℕ) (targetYM : ℕ → ℕ × ℕ)
    (pagesFor : ℕ → ℕ → Option ListingPage) (fetch : String → Option Article)
    (state : List Article) : List Article × List (List String) × List Article :=
  (List.range nMonths).foldl (monthStep articlesPerMonth targetYM pagesFor fetch)
    ([], [], state)

/-- Minimal JSON document model, enough for `json.dump` of the article
records. -/
inductive Json where
  | str (s : String)
  | num (n : ℕ)
  | arr (xs : List Json)
  | obj (fields : List (String × Json))

/-- `json.dump` of one article dict: the keys in insertion order
(lines 95-106). -/
def articleToJson (a : Article) : Json :=
  .obj [(("url"), .str a.url), (("timestamp"), .str a.timestamp),
        (("title"), .str a.title), (("content"), .str a.content),
        (("category"), .str a.category), (("author"), .str a.author),
        (("word_count"), .num a.word_count), (("char_count"), .num a.char_count),
        (("scraped_at"), .str a.scraped_at), (("scraper_version"), .str a.scraper_version)]

/-- `json.dump(articles, ...)`: the serialized document is a JSON array of
the records in sequence order. -/
def articlesToJson (articles : List Article) : Json :=
  .arr (articles.map articleToJson)

/-- Field lookup in a parsed JSON object. -/
def jsonGetStr (fields : List (String × Json)) (key : String) : Option String :=
  match fields.lookup key with
  | some (.str s) => some s
  | _ => none

/-- Numeric field lookup in a parsed JSON object. -/
def jsonGetNum (fields : List (String × Json)) (key : String) : Option ℕ :=
  match fields.lookup key with
  | some (.num n) => some n
  | _ => none

/-- Parse one article record back from JSON (the round-trip direction of the
spec's persistence property). -/
def articleOfJson : Json → Option Article
  | .obj fields => do
    let url ← jsonGetStr fields ("url")
    let timestamp ← jsonGetStr fields ("timestamp")
    let title ← jsonGetStr fields ("title")
    let content ← jsonGetStr fields ("content")
    let category ← jsonGetStr fields ("category")
    let author ← jsonGetStr fields ("author")
    let wc ← jsonGetNum fields ("word_count")
    let cc ← jsonGetNum fields ("char_count")
    let scrapedAt ← jsonGetStr fields ("scraped_at")
    let ver ← jsonGetStr fields ("scraper_version")
    pure { url := url, timestamp := timestamp, title := title, content := content,
           category := category, author := author, word_count := wc, char_count := cc,
           scraped_at := scrapedAt, scraper_version := ver }
  | _ => none

/-- Parse each element of a JSON array as an article record; any failure
fails the whole parse. -/
def articleListOfJson : List Json → Option (List Article)
  | [] => some []
  | j :: rest => do
    let a ← articleOfJson j
    let rest2 ← articleListOfJson rest
    pure (a :: rest2)

/-- Parse a saved file back into records. -/
def articlesOfJson : Json → Option (List Article)
  | .arr xs => articleListOfJson xs
  | _ => none

/-- What `save_articles` observably does besides logging. -/
inductive SaveOutcome where
  | written (doc : Json)
  | failedLogged
deriving Inhabited

/-- The body of `save_articles`'s `try` block (lines 311-313): opening the
file and dumping may raise (modelled by `writeFails`); on success the file
holds the serialized array. -/
def saveArticlesBody (writeFails : Bool) (articles : List Article) : Except Unit Json :=
  if writeFails then .error () else .ok (articlesToJson articles)

/-- `save_articles(filename, articles)` (lines 300-330): `articles is None`
means use `self.scraped_articles` (threaded as `state`); any exception from
the write is caught and logged (never re-raised), and the method never
touches `self.scraped_articles` — the state is returned unchanged on every
path. -/
def saveArticles (writeFails : Bool) (articlesArg : Option (List Article))
    (state : List Article) : SaveOutcome × List Article :=
  let articles := articlesArg.getD state
  match saveArticlesBody writeFails articles with
  | .ok doc => (.written doc, state)
  | .error _ => (.failedLogged, state)

/-- Values appearing in the statistics dict of `get_scraping_stats`.
Python's float average is modelled as an exact rational. -/
inductive StatVal where
  | num (n : ℕ)
  | rat (q : ℚ)
  | str (s : String)
  | obj (fields : List (String × StatVal))

/-- `categories[cat] = categories.get(cat, 0) + 1` on an insertion-ordered
dict (lines 348-350). -/
def bumpCategory : List (String × ℕ) → String → List (String × ℕ)
  | [], cat => [(cat, 1)]
  | (k, v) :: rest, cat =>
    if k = cat then (k, v + 1) :: rest else (k, v) :: bumpCategory rest cat

/-- The category histogram loop of `get_scraping_stats`. -/
def categoriesHistogram (articles : List Article) : List (String × ℕ) :=
  articles.foldl (fun m a => bumpCategory m a.category) []

/-- Python's `min` over a non-empty sequence of strings (lexicographic). -/
def minString : List String → String
  | [] => ("")
  | s :: rest => rest.foldl min s

/-- Python's `max` over a non-empty sequence of strings (lexicographic). -/
def maxString : List String → String
  | [] => ("")
  | s :: rest => rest.foldl max s

/-- `get_scraping_stats` (lines 332-352): with no scraped articles the dict
is exactly `{"total_articles": 0}`; otherwise it carries the four keys. -/
def getScrapingStats (state : List Article) : List (String × StatVal) :=
  if state.isEmpty then [(("total_articles"), .num 0)]
  else
    [(("total_articles"), .num state.length),
     (("average_content_length"),
       .rat (((state.map (fun a => a.content.length)).sum : ℚ) / (state.length : ℚ))),
     (("date_range"),
       .obj [(("earliest"), .str (minString (state.map (fun a => a.scraped_at)))),
             (("latest"), .str (maxString (state.map (fun a => a.scraped_at))))]),
     (("categories"),
       .obj ((categoriesHistogram state).map (fun kv => (kv.1, StatVal.num kv.2))))]

/-- The statistics display of `main` (lines 379-381): it subscripts the stats
dict with `total_articles`, `average_content_length` and `categories`
unconditionally; a missing key is a `KeyError` (`none`). -/
def mainDisplayStats (stats : List (String × StatVal)) :
    Option (StatVal × StatVal × StatVal) := do
  let total ← stats.lookup ("total_articles")
  let avg ← stats.lookup ("average_content_length")
  let cats ← stats.lookup ("categories")
  pure (total, avg, cats)

/-- A listing fetch wrapped in bounded retry, following the spec's words
("wraps Fetcher calls with bounded retry count and exponential backoff plus
jitter; used identically for page-listing and article fetches"): attempt the
fetch up to `maxRetries` times, the first success winning.
`env page attempt` is the outcome of attempt number `attempt` on that page.
This definition comes from the SPEC, not the source, for comparison with
`getArticleLinksForMonth`. -/
def specRetryFetch (env : ℕ → ℕ → Option ListingPage) (maxRetries page : ℕ) :
    Option ListingPage :=
  (List.range maxRetries).findSome? (fun attempt => env page attempt)

/-- The link collector as the spec describes it: every listing-page fetch
goes through the bounded-retry wrapper.  This definition comes from the
SPEC's words, for comparison with `getArticleLinksForMonth` (which fetches
each page exactly once). -/
def specRetryingCollector (year month maxArticles maxRetries : ℕ)
    (env : ℕ → ℕ → Option ListingPage) : List String × ℕ :=
  collectLoop (monthFragment year month) maxArticles
    (fun page => specRetryFetch env maxRetries page) 21 1 []

/-! Concrete fixtures used to instantiate the theorems below. -/

/-- A 100-character paragraph text. -/
def c100 : String := String.mk (List.replicate 100 'x')

/-- A 99-character paragraph text. -/
def c99 : String := String.mk (List.replicate 99 'x')

/-- A well-formed article page with no matching metadata selectors and a
single 100-character paragraph. -/
def soupFixture : Soup :=
  { h1 := some ("Test Article"), contentWrap := some [c100], selectOne := fun _ => none }

/-- Like `soupFixture` but with a 99-character paragraph. -/
def soup99Fixture : Soup :=
  { h1 := some ("Test Article"), contentWrap := some [c99], selectOne := fun _ => none }

/-- The record `extractArticle` builds from `soupFixture` at url `"u"`,
time `"t"`. -/
def fixtureArticle : Article :=
  { url := ("u"), timestamp := ("No timestamp found"), title := ("Test Article"),
    content := c100, category := ("general"), author := ("Unknown"),
    word_count := 1, char_count := 100, scraped_at := ("t"),
    scraper_version := ("enhanced_v1.0") }

/-- An attempt trace for listing fetches on which every first attempt raises
and every second attempt succeeds with one matching article link and no
next-page marker. -/
def failOnceEnv : ℕ → ℕ → Option ListingPage := fun _ attempt =>
  if attempt = 0 then none
  else some { hrefs := [("https://www.onlinekhabar.com/2025/08/article-a")], hasNext := false }

/-- Listing network whose first page carries two distinct links of the target
month and no next-page marker. -/
def twoLinkPages : ℕ → ℕ → Option ListingPage := fun _ page =>
  if page = 1 then
    some { hrefs := [("https://www.onlinekhabar.com/2025/08/article-a"),
                     ("https://www.onlinekhabar.com/2025/08/article-b")],
           hasNext := false }
  else none

/-! ## Theorems -/

/-- Any record built by `extractArticle` passed the length gate and derives
`word_count` and `char_count` from `content`. -/
lemma extractArticle_invariants (url now : String) (soup : Soup) (a : Article)
    (h : extractArticle url soup now = some a) :
    100 ≤ a.content.length ∧ a.word_count = (pySplit a.content).length ∧
      a.char_count = a.content.length := by
  unfold extractArticle at h
  rcases hh1 : soup.h1 with _ | title <;> rw [hh1] at h
  · simp at h
  rcases hcw : soup.contentWrap with _ | paras <;> rw [hcw] at h
  · simp at h
  by_cases hlen : (joinParagraphs paras).length < 100
  · simp [hlen] at h
  · simp only [hlen, if_false] at h
    obtain rfl := Option.some.inj h
    refine ⟨?_, rfl, rfl⟩
    show 100 ≤ (joinParagraphs paras).length
    omega

/-- A `some` result of the retry loop always comes from `extractArticle` on
the page of a successful attempt. -/
lemma scrapeAttempts_some_extract (url now : String) (j : ℕ → ℚ) :
    ∀ (outcomes : List FetchResult) (attempt : ℕ) (a : Article),
      (scrapeAttempts url now j outcomes attempt).1 = some a →
      ∃ soup, extractArticle url soup now = some a := by
  intro outcomes
  induction outcomes with
  | nil => intro attempt a h; simp [scrapeAttempts] at h
  | cons o rest ih =>
    intro attempt a h
    cases o with
    | success soup =>
      simp only [scrapeAttempts] at h
      exact ⟨soup, h⟩
    | otherError => simp [scrapeAttempts] at h
    | requestError =>
      by_cases hr : rest.isEmpty
      · simp [scrapeAttempts, hr] at h
      · simp only [scrapeAttempts, hr, if_false, Bool.false_eq_true] at h
        exact ih (attempt + 1) a h

/-- Claim C1: every article record returned by `scrape_article` satisfies the
creation-time invariants — `content` is at least 100 characters long,
`word_count` equals the number of whitespace-separated tokens of `content`,
and `char_count` equals the length of `content`; no record violating these
is ever constructed. -/
theorem scrape_article_record_invariants (url now : String) (j : ℕ → ℚ)
    (outcomes : List FetchResult) (a : Article)
    (h : (scrapeArticle url now j outcomes).1 = some a) :
    100 ≤ a.content.length ∧ a.word_count = (pySplit a.content).length ∧
      a.char_count = a.content.length := by
  obtain ⟨soup, hs⟩ := scrapeAttempts_some_extract url now j outcomes 0 a h
  exact extractArticle_invariants url now soup a hs

/-- Witness for claim C1 at a concrete page. -/
theorem scrape_article_record_invariants_witness :
    100 ≤ fixtureArticle.content.length ∧
      fixtureArticle.word_count = (pySplit fixtureArticle.content).length ∧
      fixtureArticle.char_count = fixtureArticle.content.length :=
  scrape_article_record_invariants ("u") ("t") (fun _ => 0) [.success soupFixture]
    fixtureArticle (by decide)

/-- Claim C2: with `max_retries = 3`, a fetch that fails twice with a
transport error and then succeeds makes `scrape_article` return the
successfully extracted record, with exactly two backoff sleeps, the sleep
after failed attempt `a` lasting `2 ^ a + U(0,1)` seconds (so the first lies
in `[1, 2)` and the second in `[2, 3)`); and when all three attempts fail the
result is `none` (the exception is swallowed), again after the same two
sleeps. -/
theorem scrape_article_retry_policy (url now : String) (soup : Soup) (a : Article)
    (j : ℕ → ℚ) (hj : ∀ n, 0 ≤ j n ∧ j n < 1)
    (hex : extractArticle url soup now = some a) :
    scrapeArticle url now j [.requestError, .requestError, .success soup]
      = (some a, [(2 : ℚ) ^ 0 + j 0, (2 : ℚ) ^ 1 + j 1])
    ∧ ((2 : ℚ) ^ 0 ≤ (2 : ℚ) ^ 0 + j 0 ∧ (2 : ℚ) ^ 0 + j 0 < (2 : ℚ) ^ 0 + 1)
    ∧ ((2 : ℚ) ^ 1 ≤ (2 : ℚ) ^ 1 + j 1 ∧ (2 : ℚ) ^ 1 + j 1 < (2 : ℚ) ^ 1 + 1)
    ∧ scrapeArticle url now j [.requestError, .requestError, .requestError]
      = (none, [(2 : ℚ) ^ 0 + j 0, (2 : ℚ) ^ 1 + j 1]) := by
  obtain ⟨h0l, h0u⟩ := hj 0
  obtain ⟨h1l, h1u⟩ := hj 1
  refine ⟨?_, ⟨by linarith, by linarith⟩, ⟨by linarith, by linarith⟩, ?_⟩
  · simp [scrapeArticle, scrapeAttempts, hex]
  · simp [scrapeArticle, scrapeAttempts]

/-- Witness for claim C2: the fail-fail-succeed trace at a concrete page and
jitter 1/2 per attempt. -/
theorem scrape_article_retry_policy_witness :
    scrapeArticle ("u") ("t") (fun _ => (1 : ℚ) / 2)
        [.requestError, .requestError, .success soupFixture]
      = (some fixtureArticle, [(2 : ℚ) ^ 0 + 1 / 2, (2 : ℚ) ^ 1 + 1 / 2]) :=
  (scrape_article_retry_policy ("u") ("t") soupFixture fixtureArticle
    (fun _ => (1 : ℚ) / 2) (fun _ => ⟨by norm_num, by norm_num⟩) (by decide)).1

/-- Counterexample to claim C3: on an attempt trace where every listing
fetch fails once and then succeeds, the code's collector (which consumes
only attempt 0 of each page) does not behave like the spec's
retried-fetch collector — the code gives up with no links where the
retrying collector would gather the month's link. -/
theorem listing_retry_counterexample :
    ¬ (getArticleLinksForMonth 2025 8 100 (fun page => failOnceEnv page 0)
        = specRetryingCollector 2025 8 100 3 failOnceEnv) := by
  decide

/-- Claim C3 amended: listing-page fetches are NOT retried — the collector
makes exactly one fetch attempt per page, and a transport failure on the
first page ends the month's collection at once with no links and a single
fetch (partial results, no backoff, no further attempts); more generally a
failure at any in-loop page ends collection with the links accumulated so
far after exactly one fetch of the failing page. -/
theorem listing_fetch_no_retry (year month maxArticles : ℕ)
    (pages : ℕ → Option ListingPage) (h1 : pages 1 = none) (hmax : 0 < maxArticles) :
    getArticleLinksForMonth year month maxArticles pages = ([], 1)
    ∧ ∀ frag fuel page links, pages page = none → links.length < maxArticles →
        page ≤ 20 → collectLoop frag maxArticles pages (fuel + 1) page links = (links, 1) := by
  constructor
  · simp [getArticleLinksForMonth, collectLoop, h1, hmax]
  · intro frag fuel page links hfail hlen hpage
    simp [collectLoop, hfail, hlen, hpage]

/-- Witness for the amended claim C3: an always-failing listing network
yields no links after exactly one fetch. -/
theorem listing_fetch_no_retry_witness :
    getArticleLinksForMonth 2025 8 100 (fun _ => none) = ([], 1) :=
  (listing_fetch_no_retry 2025 8 100 (fun _ => none) rfl (by norm_num)).1

/-- The collection loop performs at most `21 - page` listing-page fetches
when entered at page number `page`. -/
lemma collectLoop_fetch_bound (frag : String) (maxArticles : ℕ)
    (pages : ℕ → Option ListingPage) :
    ∀ (fuel page : ℕ) (links : List String),
      (collectLoop frag maxArticles pages fuel page links).2 ≤ 21 - page := by
  intro fuel
  induction fuel with
  | zero => intro page links; simp [collectLoop]
  | succ fuel ih =>
    intro page links
    simp only [collectLoop]
    split
    · rename_i hc
      split
      · dsimp only
        omega
      · split
        · rename_i p hp hn
          have := ih (page + 1) (addPageLinks frag links p.hrefs)
          dsimp only
          omega
        · dsimp only
          omega
    · rename_i hc
      dsimp only
      omega

/-- Claim C4: for every year, month and `max_articles`,
`get_article_links_for_month` performs at most 20 listing-page fetches and
its loop terminates (the collector is a total function; here, even against a
network that always reports a further page, the hard page ceiling stops the
crawl after exactly 20 fetches). -/
theorem listing_pages_fetch_ceiling :
    (∀ (year month maxArticles : ℕ) (pages : ℕ → Option ListingPage),
        (getArticleLinksForMonth year month maxArticles pages).2 ≤ 20)
    ∧ (getArticleLinksForMonth 2025 8 100
        (fun _ => some { hrefs := [], hasNext := true })).2 = 20 := by
  constructor
  · intro year month maxArticles pages
    have := collectLoop_fetch_bound (monthFragment year month) maxArticles pages 21 1 []
    simpa [getArticleLinksForMonth] using this
  · decide

/-- Counterexample to claim C5: with a per-month cap of 1 article and a
first listing page carrying two matching links, `scrape_last_n_months` hands
the per-article fetch step a list of 2 URLs — more than `articles_per_month`
— because it never truncates the collector's output. -/
theorem orchestrator_truncation_counterexample :
    ¬ (∀ l ∈ (scrapeLastNMonths 1 1 (fun _ => (2025, 8)) twoLinkPages
          (fun _ => none) []).2.1, l.length ≤ 1) := by
  decide

/-- The trace of URL lists handed to `scrape_articles_bulk` by the month
loop is exactly the non-empty collector outputs, unmodified. -/
lemma scrapeMonths_trace (cap : ℕ) (targetYM : ℕ → ℕ × ℕ)
    (pagesFor : ℕ → ℕ → Option ListingPage) (fetch : String → Option Article) :
    ∀ (ms : List ℕ) (acc : List Article × List (List String) × List Article),
      (ms.foldl (monthStep cap targetYM pagesFor fetch) acc).2.1
        = acc.2.1 ++ (ms.map (fun i =>
            (getArticleLinksForMonth (targetYM i).1 (targetYM i).2 cap (pagesFor i)).1)).filter
            (fun l => !l.isEmpty) := by
  intro ms
  induction ms with
  | nil => intro acc; simp
  | cons i rest ih =>
    intro acc
    simp only [List.foldl_cons, List.map_cons, List.filter_cons]
    rw [ih]
    by_cases hu :
        ((getArticleLinksForMonth (targetYM i).1 (targetYM i).2 cap (pagesFor i)).1).isEmpty
    · simp [monthStep, hu]
    · simp [monthStep, hu]

/-- Claim C5 amended: `scrape_last_n_months` does NOT truncate a month's
candidate URL list — it passes the collector's output to
`scrape_articles_bulk` unmodified (every non-empty collector output appears
verbatim in the trace of per-month URL lists handed to the fetch step), so
the number of URLs fetched in a month can exceed `articles_per_month`
whenever the collector over-returns. -/
theorem orchestrator_passes_collector_output (nMonths cap : ℕ)
    (targetYM : ℕ → ℕ × ℕ) (pagesFor : ℕ → ℕ → Option ListingPage)
    (fetch : String → Option Article) (state : List Article) :
    (scrapeLastNMonths nMonths cap targetYM pagesFor fetch state).2.1
      = ((List.range nMonths).map (fun i =>
          (getArticleLinksForMonth (targetYM i).1 (targetYM i).2 cap (pagesFor i)).1)).filter
          (fun l => !l.isEmpty) := by
  have h := scrapeMonths_trace cap targetYM pagesFor fetch (List.range nMonths) ([], [], state)
  simpa [scrapeLastNMonths] using h

/-- Claim C6: given successfully fetched article HTML, the extractor rejects
(returns `none`) exactly when the page has no `h1` node, or no
`ok18-single-post-content-wrap` wrapper, or the joined paragraph text is
shorter than 100 characters; at the boundary, a page whose paragraph text
has exactly 99 characters is rejected and one with exactly 100 characters is
accepted. -/
theorem extractor_reject_characterization :
    (∀ (url : String) (soup : Soup) (now : String),
        extractArticle url soup now = none ↔
          soup.h1 = none ∨ soup.contentWrap = none ∨
            ∃ paras, soup.contentWrap = some paras ∧ (joinParagraphs paras).length < 100)
    ∧ extractArticle ("u") soup99Fixture ("t") = none
    ∧ (extractArticle ("u") soupFixture ("t")).isSome = true := by
  refine ⟨?_, by decide, by decide⟩
  intro url soup now
  unfold extractArticle
  rcases hh1 : soup.h1 with _ | title
  · simp [hh1]
  rcases hcw : soup.contentWrap with _ | paras
  · simp [hh1, hcw]
  by_cases hlen : (joinParagraphs paras).length < 100
  · simp [hh1, hcw, hlen]
  · simp [hh1, hcw, hlen]

/-- Claim C7: category extraction follows the exact fallback order — the
selector chain (`.category-name`, `.post-category`, any class containing
`category`) is tried first and its first match wins; otherwise the URL's
slash-separated segments are matched case-insensitively against the fixed
vocabulary and the first matching segment is returned; otherwise the result
is `"general"`.  In particular, with no matching selector and a URL
containing `/technology/` the category is `"technology"`, and with neither
it is `"general"`. -/
theorem category_fallback_order :
    (∀ (soup : Soup) (url t : String),
        firstSelector soup categorySelectors = some t → extractCategory soup url = t)
    ∧ (∀ (soup : Soup) (url part : String),
        firstSelector soup categorySelectors = none →
        (pySplitOnChar url '/').find? (fun p => categoryVocabulary.contains (pyLower p))
          = some part →
        extractCategory soup url = part)
    ∧ (∀ (soup : Soup) (url : String),
        firstSelector soup categorySelectors = none →
        (pySplitOnChar url '/').find? (fun p => categoryVocabulary.contains (pyLower p))
          = none →
        extractCategory soup url = ("general"))
    ∧ extractCategory soupFixture ("https://www.onlinekhabar.com/technology/some-article")
        = ("technology")
    ∧ extractCategory soupFixture ("https://news.example.com/misc/some-article")
        = ("general") := by
  refine ⟨?_, ?_, ?_, by decide, by decide⟩
  · intro soup url t h
    simp [extractCategory, h]
  · intro soup url part h1 h2
    simp only [extractCategory, h1]
    rw [h2]
  · intro soup url h1 h2
    simp only [extractCategory, h1]
    rw [h2]

/-- Witness for claim C7: the URL fallback fires on a concrete page with no
matching selectors. -/
theorem category_fallback_order_witness :
    extractCategory soupFixture ("https://www.onlinekhabar.com/technology/x")
      = ("technology") :=
  category_fallback_order.2.1 soupFixture ("https://www.onlinekhabar.com/technology/x")
    ("technology") (by decide) (by decide)

/-- One record round-trips through serialization. -/
lemma articleOfJson_roundtrip (a : Article) :
    articleOfJson (articleToJson a) = some a := by
  rfl

/-- A record sequence round-trips through serialization. -/
lemma articlesOfJson_roundtrip (articles : List Article) :
    articlesOfJson (articlesToJson articles) = some articles := by
  simp only [articlesOfJson, articlesToJson]
  induction articles with
  | nil => rfl
  | cons a rest ih => simp [articleListOfJson, articleOfJson_roundtrip, ih]

/-- Claim C8: in the library form, `save_articles` catches any write failure
and does not propagate it, the in-memory sequence `self.scraped_articles` is
unchanged on every path, saving an empty sequence produces the empty JSON
array, and saving `N` records produces a JSON array of `N` elements that
parse back equal to the in-memory records. -/
theorem save_articles_contract :
    (∀ (writeFails : Bool) (articlesArg : Option (List Article)) (state : List Article),
        (saveArticles writeFails articlesArg state).2 = state)
    ∧ (∀ (articlesArg : Option (List Article)) (state : List Article),
        (saveArticles true articlesArg state).1 = SaveOutcome.failedLogged)
    ∧ articlesToJson [] = Json.arr []
    ∧ (∀ articles : List Article, ∃ elems : List Json,
        articlesToJson articles = Json.arr elems ∧ elems.length = articles.length)
    ∧ (∀ articles : List Article,
        articlesOfJson (articlesToJson articles) = some articles) := by
  refine ⟨?_, ?_, rfl, ?_, articlesOfJson_roundtrip⟩
  · intro wf arg st
    cases wf <;> simp [saveArticles, saveArticlesBody]
  · intro arg st
    simp [saveArticles, saveArticlesBody]
  · intro arts
    exact ⟨arts.map articleToJson, rfl, by simp⟩

/-- The bulk scraper appends exactly its returned records, in order, to the
accumulator. -/
lemma bulk_state_eq (fetch : String → Option Article) :
    ∀ (urls : List String) (state : List Article),
      (scrapeArticlesBulk fetch urls state).2
        = state ++ (scrapeArticlesBulk fetch urls state).1 := by
  intro urls
  induction urls with
  | nil => intro state; simp [scrapeArticlesBulk]
  | cons url rest ih =>
    intro state
    cases hf : fetch url with
    | none =>
      simp only [scrapeArticlesBulk, hf]
      exact ih state
    | some a =>
      simp only [scrapeArticlesBulk, hf]
      rw [ih (state ++ [a])]
      simp

/-- Claim C9: every record `scrape_articles_bulk` returns is also appended,
in the same order, to `self.scraped_articles`, whose final value is the
initial value followed by the concatenation of the results of the bulk calls
made on the instance; and `save_articles` called with no explicit `articles`
argument serializes this accumulator. -/
theorem bulk_accumulator_invariant :
    (∀ (fetch : String → Option Article) (urls : List String) (state : List Article),
        (scrapeArticlesBulk fetch urls state).2
          = state ++ (scrapeArticlesBulk fetch urls state).1)
    ∧ (∀ (fetch : String → Option Article) (urls1 urls2 : List String)
          (state : List Article),
        (scrapeArticlesBulk fetch urls2 (scrapeArticlesBulk fetch urls1 state).2).2
          = state ++ (scrapeArticlesBulk fetch urls1 state).1
              ++ (scrapeArticlesBulk fetch urls2 (scrapeArticlesBulk fetch urls1 state).2).1)
    ∧ (∀ state : List Article,
        saveArticles false none state
          = (SaveOutcome.written (articlesToJson state), state)) := by
  refine ⟨fun fetch => bulk_state_eq fetch, ?_, ?_⟩
  · intro fetch u1 u2 st
    rw [bulk_state_eq fetch u2, bulk_state_eq fetch u1, List.append_assoc]
  · intro st
    rfl

/-- Claim C10: with no scraped articles, `get_scraping_stats` returns
exactly the one-key dict `{"total_articles": 0}` — no
`average_content_length`, `date_range` or `categories` keys — so the
standalone entry point, which subscripts those keys unconditionally, fails
(`KeyError`, here `none`) on a zero-article run. -/
theorem empty_stats_shape :
    getScrapingStats [] = [(("total_articles"), StatVal.num 0)]
    ∧ (getScrapingStats []).lookup ("average_content_length") = none
    ∧ (getScrapingStats []).lookup ("date_range") = none
    ∧ (getScrapingStats []).lookup ("categories") = none
    ∧ mainDisplayStats (getScrapingStats []) = none :=
  ⟨rfl, rfl, rfl, rfl, rfl⟩

end OnlineNews
